import Mathlib

/-!
Verification of the deadtrees-upload client core: session checkpointing
(`dedup.py`), chunked transfer (`upload.py`), credential refresh (`auth.py`)
and the batch coordinator's duplicate scan (`workflow.py`).

Python dicts are modelled as insertion-ordered association lists with unique
keys (`Dict`); Python lists as Lean lists; file bytes as lists of naturals;
the network as an oracle mapping the index of a request to its outcome.
-/

namespace DeadtreesUpload

/-- Insertion-ordered association list with string keys, modelling a Python
`dict` (whose iteration order is insertion order and whose keys are unique). -/
abbrev Dict (α : Type) := List (String × α)

/-- The keys of a dict, in insertion order. -/
def Dict.keys {α : Type} (d : Dict α) : List String := d.map Prod.fst

/-- `k in d` on a Python dict. -/
def Dict.hasKey {α : Type} (d : Dict α) (k : String) : Bool :=
  d.any (fun p => p.1 == k)

/-- `d.get(k)`: the value stored at `k`, if any. -/
def Dict.get {α : Type} (d : Dict α) (k : String) : Option α :=
  (d.find? (fun p => p.1 == k)).map Prod.snd

/-- `d[k] = v`: update in place when the key exists (keeping its position),
append otherwise — Python dict assignment semantics. -/
def Dict.insert {α : Type} (d : Dict α) (k : String) (v : α) : Dict α :=
  if d.hasKey k then d.map (fun p => if p.1 == k then (k, v) else p)
  else d ++ [(k, v)]

/-- `d.pop(k, None)`: remove the entry with key `k`, if present.  A dict
holds each key once, so removing the first occurrence is removal. -/
def Dict.erase {α : Type} : Dict α → String → Dict α
  | [], _ => []
  | p :: rest, k => if p.1 == k then rest else p :: Dict.erase rest k

/-- `UploadSessionState` from `dedup.py`: the durable checkpoint record.
`files_total` is a Python `int` (it may be compared against counts that
exceed it), hence `Int`. -/
structure UploadSessionState where
  session_id : String
  created_at : String
  data_directory : String
  metadata_file : String
  api_url : String
  files_total : Int
  files_completed : List String
  files_failed : Dict String
  files_skipped : Dict String
  file_hashes : Dict String
  dataset_ids : Dict Int
  deriving DecidableEq, Repr

/-- `files_pending`: `files_total` minus the number of tracked entries.
Python subtraction on ints, so the result can be negative. -/
def UploadSessionState.files_pending (s : UploadSessionState) : Int :=
  s.files_total -
    (s.files_completed.length + s.files_failed.length + s.files_skipped.length)

/-- `is_complete`: all files processed. -/
def UploadSessionState.is_complete (s : UploadSessionState) : Bool :=
  s.files_pending == 0

/-- `mark_completed`: append to the completed list, record the dataset id,
and drop any prior failed entry. -/
def UploadSessionState.mark_completed (s : UploadSessionState)
    (filename : String) (dataset_id : Int) : UploadSessionState :=
  { s with
    files_completed := s.files_completed ++ [filename]
    dataset_ids := s.dataset_ids.insert filename dataset_id
    files_failed := s.files_failed.erase filename }

/-- `mark_failed`: record (or overwrite) the error for a filename. -/
def UploadSessionState.mark_failed (s : UploadSessionState)
    (filename : String) (error : String) : UploadSessionState :=
  { s with files_failed := s.files_failed.insert filename error }

/-- `mark_skipped`: record (or overwrite) the skip reason for a filename. -/
def UploadSessionState.mark_skipped (s : UploadSessionState)
    (filename : String) (reason : String) : UploadSessionState :=
  { s with files_skipped := s.files_skipped.insert filename reason }

/-- `should_process`: not completed and not skipped (failed stays eligible). -/
def UploadSessionState.should_process (s : UploadSessionState)
    (filename : String) : Bool :=
  !(s.files_completed.contains filename) && !(s.files_skipped.hasKey filename)

/-- `create`: fresh record.  The random session id and the creation
timestamp are inputs of the model. -/
def UploadSessionState.create (session_id created_at : String)
    (data_directory metadata_file api_url : String) : UploadSessionState :=
  { session_id := session_id
    created_at := created_at
    data_directory := data_directory
    metadata_file := metadata_file
    api_url := api_url
    files_total := 0
    files_completed := []
    files_failed := []
    files_skipped := []
    file_hashes := []
    dataset_ids := [] }

theorem Dict.keys_cons {α : Type} (p : String × α) (rest : Dict α) :
    Dict.keys (p :: rest) = p.1 :: Dict.keys rest := rfl

theorem Dict.hasKey_iff {α : Type} (d : Dict α) (k : String) :
    d.hasKey k = true ↔ k ∈ Dict.keys d := by
  simp [Dict.hasKey, Dict.keys, List.any_eq_true, List.mem_map, beq_iff_eq]

theorem Dict.erase_of_not_mem {α : Type} (d : Dict α) (k : String)
    (h : k ∉ Dict.keys d) : d.erase k = d := by
  induction d with
  | nil => rfl
  | cons p rest ih =>
    rw [Dict.keys_cons, List.mem_cons] at h
    push_neg at h
    rw [Dict.erase, if_neg (by simpa using fun he => h.1 he.symm)]
    rw [ih h.2]

theorem Dict.length_erase_of_mem {α : Type} (d : Dict α) (k : String)
    (h : k ∈ Dict.keys d) : (d.erase k).length + 1 = d.length := by
  induction d with
  | nil => simp [Dict.keys] at h
  | cons p rest ih =>
    rw [Dict.keys_cons, List.mem_cons] at h
    by_cases hpk : p.1 == k
    · rw [Dict.erase, if_pos hpk]
      simp
    · rw [Dict.erase, if_neg hpk]
      have hk : k ∈ Dict.keys rest := by
        rcases h with h | h
        · exact absurd (beq_iff_eq.mpr h.symm) hpk
        · exact h
      simpa using ih hk

theorem Dict.keys_erase_sublist {α : Type} (d : Dict α) (k : String) :
    List.Sublist (Dict.keys (d.erase k)) (Dict.keys d) := by
  induction d with
  | nil => simp [Dict.erase]
  | cons p rest ih =>
    by_cases hpk : p.1 == k
    · rw [Dict.erase, if_pos hpk, Dict.keys_cons]
      exact List.sublist_cons_self p.1 (Dict.keys rest)
    · rw [Dict.erase, if_neg hpk, Dict.keys_cons, Dict.keys_cons]
      exact List.Sublist.cons₂ p.1 ih

theorem Dict.not_mem_keys_erase {α : Type} (d : Dict α) (k : String)
    (h : (Dict.keys d).Nodup) : k ∉ Dict.keys (d.erase k) := by
  induction d with
  | nil => simp [Dict.erase, Dict.keys]
  | cons p rest ih =>
    rw [Dict.keys_cons, List.nodup_cons] at h
    by_cases hpk : p.1 == k
    · rw [Dict.erase, if_pos hpk]
      have : p.1 = k := beq_iff_eq.mp hpk
      exact this ▸ h.1
    · rw [Dict.erase, if_neg hpk, Dict.keys_cons]
      intro hmem
      rcases List.mem_cons.mp hmem with he | hm
      · exact hpk (beq_iff_eq.mpr he.symm)
      · exact ih h.2 hm

theorem Dict.keys_insert_of_hasKey {α : Type} (d : Dict α) (k : String) (v : α)
    (h : d.hasKey k = true) : Dict.keys (d.insert k v) = Dict.keys d := by
  rw [Dict.insert, if_pos h, Dict.keys, Dict.keys, List.map_map]
  apply List.map_congr_left
  intro p _
  by_cases hpk : p.1 == k
  · simp only [Function.comp_apply, if_pos hpk]
    exact (beq_iff_eq.mp hpk).symm
  · simp only [Function.comp_apply, if_neg hpk]

theorem Dict.keys_insert_of_not_hasKey {α : Type} (d : Dict α) (k : String) (v : α)
    (h : ¬ d.hasKey k = true) : Dict.keys (d.insert k v) = Dict.keys d ++ [k] := by
  rw [Dict.insert, if_neg h, Dict.keys, Dict.keys, List.map_append]
  rfl

theorem Dict.length_insert_of_hasKey {α : Type} (d : Dict α) (k : String) (v : α)
    (h : d.hasKey k = true) : (d.insert k v).length = d.length := by
  rw [Dict.insert, if_pos h, List.length_map]

theorem Dict.length_insert_of_not_hasKey {α : Type} (d : Dict α) (k : String) (v : α)
    (h : ¬ d.hasKey k = true) : (d.insert k v).length = d.length + 1 := by
  rw [Dict.insert, if_neg h, List.length_append, List.length_singleton]

/-- The invariant the specification states for checkpoint records: the
completed list and the key sets of the failed and skipped maps are pairwise
disjoint, and the pending count is non-negative.  The failed map carrying
each key once is the bookkeeping assumption under which `mark_completed`
clears a failed entry completely. -/
def CheckpointInv (s : UploadSessionState) : Prop :=
  (∀ f ∈ s.files_completed,
      f ∉ Dict.keys s.files_failed ∧ f ∉ Dict.keys s.files_skipped) ∧
  (∀ f ∈ Dict.keys s.files_failed, f ∉ Dict.keys s.files_skipped) ∧
  (Dict.keys s.files_failed).Nodup ∧
  0 ≤ s.files_pending

@[simp] theorem mark_completed_completed (s : UploadSessionState) (f : String) (i : Int) :
    (s.mark_completed f i).files_completed = s.files_completed ++ [f] := rfl

@[simp] theorem mark_completed_failed (s : UploadSessionState) (f : String) (i : Int) :
    (s.mark_completed f i).files_failed = s.files_failed.erase f := rfl

@[simp] theorem mark_completed_skipped (s : UploadSessionState) (f : String) (i : Int) :
    (s.mark_completed f i).files_skipped = s.files_skipped := rfl

@[simp] theorem mark_completed_total (s : UploadSessionState) (f : String) (i : Int) :
    (s.mark_completed f i).files_total = s.files_total := rfl

@[simp] theorem mark_failed_completed (s : UploadSessionState) (f e : String) :
    (s.mark_failed f e).files_completed = s.files_completed := rfl

@[simp] theorem mark_failed_failed (s : UploadSessionState) (f e : String) :
    (s.mark_failed f e).files_failed = s.files_failed.insert f e := rfl

@[simp] theorem mark_failed_skipped (s : UploadSessionState) (f e : String) :
    (s.mark_failed f e).files_skipped = s.files_skipped := rfl

@[simp] theorem mark_failed_total (s : UploadSessionState) (f e : String) :
    (s.mark_failed f e).files_total = s.files_total := rfl

@[simp] theorem mark_skipped_completed (s : UploadSessionState) (f r : String) :
    (s.mark_skipped f r).files_completed = s.files_completed := rfl

@[simp] theorem mark_skipped_failed (s : UploadSessionState) (f r : String) :
    (s.mark_skipped f r).files_failed = s.files_failed := rfl

@[simp] theorem mark_skipped_skipped (s : UploadSessionState) (f r : String) :
    (s.mark_skipped f r).files_skipped = s.files_skipped.insert f r := rfl

@[simp] theorem mark_skipped_total (s : UploadSessionState) (f r : String) :
    (s.mark_skipped f r).files_total = s.files_total := rfl

theorem create_checkpointInv (a b c d e : String) :
    CheckpointInv (UploadSessionState.create a b c d e) := by
  refine ⟨?_, ?_, ?_, ?_⟩ <;>
    simp [CheckpointInv, UploadSessionState.create, Dict.keys,
      UploadSessionState.files_pending]

theorem checkpointInv_mark_fresh (s : UploadSessionState) (f err reason : String)
    (i : Int) (hInv : CheckpointInv s) (hc : f ∉ s.files_completed)
    (hf : f ∉ Dict.keys s.files_failed) (hk : f ∉ Dict.keys s.files_skipped)
    (hp : 0 < s.files_pending) :
    CheckpointInv (s.mark_completed f i) ∧ CheckpointInv (s.mark_failed f err) ∧
      CheckpointInv (s.mark_skipped f reason) := by
  obtain ⟨h1, h2, h3, h4⟩ := hInv
  have hKf : ¬ s.files_failed.hasKey f = true :=
    fun h => hf ((Dict.hasKey_iff _ _).mp h)
  have hKs : ¬ s.files_skipped.hasKey f = true :=
    fun h => hk ((Dict.hasKey_iff _ _).mp h)
  have hEr : s.files_failed.erase f = s.files_failed :=
    Dict.erase_of_not_mem _ _ hf
  have hKfKeys := Dict.keys_insert_of_not_hasKey s.files_failed f err hKf
  have hKsKeys := Dict.keys_insert_of_not_hasKey s.files_skipped f reason hKs
  have hLenF := Dict.length_insert_of_not_hasKey s.files_failed f err hKf
  have hLenS := Dict.length_insert_of_not_hasKey s.files_skipped f reason hKs
  have hPend : 0 < s.files_total -
      ((s.files_completed.length : Int) + s.files_failed.length +
        s.files_skipped.length) := by
    simpa [UploadSessionState.files_pending] using hp
  refine ⟨⟨?_, ?_, ?_, ?_⟩, ⟨?_, ?_, ?_, ?_⟩, ⟨?_, ?_, ?_, ?_⟩⟩
  · intro g hg
    simp only [mark_completed_completed, List.mem_append, List.mem_singleton] at hg
    simp only [mark_completed_failed, mark_completed_skipped, hEr]
    rcases hg with hg | hg
    · exact h1 g hg
    · exact hg ▸ ⟨hf, hk⟩
  · simpa [hEr] using h2
  · simpa [hEr] using h3
  · simp only [UploadSessionState.files_pending, mark_completed_total,
      mark_completed_completed, mark_completed_failed, mark_completed_skipped,
      hEr, List.length_append, List.length_singleton]
    push_cast
    omega
  · intro g hg
    simp only [mark_failed_completed] at hg
    simp only [mark_failed_failed, mark_failed_skipped, hKfKeys, List.mem_append,
      List.mem_singleton]
    have hgf : g ≠ f := fun he => hc (he ▸ hg)
    exact ⟨fun h => h.elim (fun hh => (h1 g hg).1 hh) (fun hh => hgf hh),
      (h1 g hg).2⟩
  · intro g hg
    simp only [mark_failed_failed, hKfKeys, List.mem_append, List.mem_singleton] at hg
    simp only [mark_failed_skipped]
    rcases hg with hg | hg
    · exact h2 g hg
    · exact hg ▸ hk
  · simp only [mark_failed_failed, hKfKeys]
    refine List.Nodup.append h3 (List.nodup_singleton f) ?_
    intro a ha hb
    rw [List.mem_singleton] at hb
    exact hf (hb ▸ ha)
  · simp only [UploadSessionState.files_pending, mark_failed_total,
      mark_failed_completed, mark_failed_failed, mark_failed_skipped, hLenF]
    push_cast
    omega
  · intro g hg
    simp only [mark_skipped_completed] at hg
    simp only [mark_skipped_failed, mark_skipped_skipped, hKsKeys, List.mem_append,
      List.mem_singleton]
    have hgf : g ≠ f := fun he => hc (he ▸ hg)
    exact ⟨(h1 g hg).1,
      fun h => h.elim (fun hh => (h1 g hg).2 hh) (fun hh => hgf hh)⟩
  · intro g hg
    simp only [mark_skipped_failed] at hg
    simp only [mark_skipped_skipped, hKsKeys, List.mem_append, List.mem_singleton]
    intro h
    rcases h with h | h
    · exact h2 g hg h
    · exact hf (h ▸ hg)
  · simpa using h3
  · simp only [UploadSessionState.files_pending, mark_skipped_total,
      mark_skipped_completed, mark_skipped_failed, mark_skipped_skipped, hLenS]
    push_cast
    omega

theorem checkpointInv_mark_completed_retry (s : UploadSessionState) (f err : String)
    (i : Int) (hInv : CheckpointInv s) (_hc : f ∉ s.files_completed)
    (hf : f ∈ Dict.keys s.files_failed) (hk : f ∉ Dict.keys s.files_skipped) :
    CheckpointInv (s.mark_completed f i) ∧ CheckpointInv (s.mark_failed f err) := by
  obtain ⟨h1, h2, h3, h4⟩ := hInv
  have hKf : s.files_failed.hasKey f = true := (Dict.hasKey_iff _ _).mpr hf
  have hLen := Dict.length_erase_of_mem s.files_failed f hf
  have hSub := Dict.keys_erase_sublist s.files_failed f
  have hNoF := Dict.not_mem_keys_erase s.files_failed f h3
  have hKeysIns := Dict.keys_insert_of_hasKey s.files_failed f err hKf
  have hLenIns := Dict.length_insert_of_hasKey s.files_failed f err hKf
  have hPend : 0 ≤ s.files_total -
      ((s.files_completed.length : Int) + s.files_failed.length +
        s.files_skipped.length) := by
    simpa [UploadSessionState.files_pending] using h4
  refine ⟨⟨?_, ?_, ?_, ?_⟩, ⟨?_, ?_, ?_, ?_⟩⟩
  · intro g hg
    simp only [mark_completed_completed, List.mem_append, List.mem_singleton] at hg
    simp only [mark_completed_failed, mark_completed_skipped]
    rcases hg with hg | hg
    · exact ⟨fun h => (h1 g hg).1 (hSub.subset h), (h1 g hg).2⟩
    · cases hg
      exact ⟨hNoF, hk⟩
  · intro g hg
    simp only [mark_completed_failed] at hg
    simp only [mark_completed_skipped]
    exact h2 g (hSub.subset hg)
  · exact List.Nodup.sublist hSub h3
  · simp only [UploadSessionState.files_pending, mark_completed_total,
      mark_completed_completed, mark_completed_failed, mark_completed_skipped,
      List.length_append, List.length_singleton]
    omega
  · intro g hg
    simp only [mark_failed_completed] at hg
    simp only [mark_failed_failed, mark_failed_skipped, hKeysIns]
    exact h1 g hg
  · intro g hg
    simp only [mark_failed_failed, hKeysIns] at hg
    simp only [mark_failed_skipped]
    exact h2 g hg
  · simp only [mark_failed_failed, hKeysIns]
    exact h3
  · simp only [UploadSessionState.files_pending, mark_failed_total,
      mark_failed_completed, mark_failed_failed, mark_failed_skipped, hLenIns]
    exact hPend

theorem checkpointInv_mark_skipped_again (s : UploadSessionState) (f reason : String)
    (hInv : CheckpointInv s) (hk : f ∈ Dict.keys s.files_skipped) :
    CheckpointInv (s.mark_skipped f reason) := by
  obtain ⟨h1, h2, h3, h4⟩ := hInv
  have hKs : s.files_skipped.hasKey f = true := (Dict.hasKey_iff _ _).mpr hk
  have hKeysIns := Dict.keys_insert_of_hasKey s.files_skipped f reason hKs
  have hLenIns := Dict.length_insert_of_hasKey s.files_skipped f reason hKs
  refine ⟨?_, ?_, ?_, ?_⟩
  · intro g hg
    simp only [mark_skipped_completed] at hg
    simp only [mark_skipped_failed, mark_skipped_skipped, hKeysIns]
    exact h1 g hg
  · intro g hg
    simp only [mark_skipped_failed] at hg
    simp only [mark_skipped_skipped, hKeysIns]
    exact h2 g hg
  · simpa using h3
  · simp only [UploadSessionState.files_pending, mark_skipped_total,
      mark_skipped_completed, mark_skipped_failed, mark_skipped_skipped, hLenIns]
    simpa [UploadSessionState.files_pending] using h4

/-- C1 counterexample: the claimed invariant fails at a reachable record.
Marking a file completed on a freshly created record (whose `files_total`
is 0) drives `files_pending` to −1, and a subsequent `mark_skipped` of the
same filename puts it in both the completed list and the skipped map, so
the collections are not pairwise disjoint and pending is negative. -/
theorem checkpoint_invariant_fails_on_reachable_state :
    ((UploadSessionState.create "sid" "now" "dir" "meta" "api").mark_completed
        "a.tif" 1).files_pending = -1 ∧
    "a.tif" ∈ (((UploadSessionState.create "sid" "now" "dir" "meta"
        "api").mark_completed "a.tif" 1).mark_skipped "a.tif"
        "dup").files_completed ∧
    "a.tif" ∈ Dict.keys ((((UploadSessionState.create "sid" "now" "dir" "meta"
        "api")).mark_completed "a.tif" 1).mark_skipped "a.tif"
        "dup").files_skipped ∧
    ¬ CheckpointInv ((UploadSessionState.create "sid" "now" "dir" "meta"
        "api").mark_completed "a.tif" 1) := by
  refine ⟨by decide, by decide, by decide, ?_⟩
  intro h
  exact absurd h.2.2.2 (by decide)

/-- C1 (amended): a freshly created record satisfies the invariant
(pairwise-disjoint collections, non-negative pending), and each of
`mark_completed`, `mark_failed` and `mark_skipped` preserves it under the
preconditions the batch coordinator maintains: the filename is not already
tracked in the other collections, and either the operation re-marks an
existing entry (overwriting a failed or skipped entry, or completing a
previously failed file) or there is pending capacity (`0 < files_pending`).
Without these preconditions the invariant is not preserved. -/
theorem checkpoint_operations_preserve_invariant
    (s : UploadSessionState) (a b c d e f err reason : String) (i : Int) :
    CheckpointInv (UploadSessionState.create a b c d e) ∧
    (CheckpointInv s → f ∉ s.files_completed → f ∉ Dict.keys s.files_failed →
      f ∉ Dict.keys s.files_skipped → 0 < s.files_pending →
      CheckpointInv (s.mark_completed f i) ∧ CheckpointInv (s.mark_failed f err) ∧
        CheckpointInv (s.mark_skipped f reason)) ∧
    (CheckpointInv s → f ∉ s.files_completed → f ∈ Dict.keys s.files_failed →
      f ∉ Dict.keys s.files_skipped →
      CheckpointInv (s.mark_completed f i) ∧ CheckpointInv (s.mark_failed f err)) ∧
    (CheckpointInv s → f ∈ Dict.keys s.files_skipped →
      CheckpointInv (s.mark_skipped f reason)) :=
  ⟨create_checkpointInv a b c d e,
    fun h1 h2 h3 h4 h5 => checkpointInv_mark_fresh s f err reason i h1 h2 h3 h4 h5,
    fun h1 h2 h3 h4 => checkpointInv_mark_completed_retry s f err i h1 h2 h3 h4,
    fun h1 h2 => checkpointInv_mark_skipped_again s f reason h1 h2⟩

/-- Witness for the amended C1 theorem at a concrete record with capacity. -/
theorem checkpoint_operations_preserve_invariant_witness :
    CheckpointInv ({ UploadSessionState.create "sid" "now" "dir" "meta" "api" with
        files_total := 2 }.mark_completed "a.tif" 7) ∧
    CheckpointInv ({ UploadSessionState.create "sid" "now" "dir" "meta" "api" with
        files_total := 2 }.mark_failed "a.tif" "boom") ∧
    CheckpointInv ({ UploadSessionState.create "sid" "now" "dir" "meta" "api" with
        files_total := 2 }.mark_skipped "a.tif" "dup") :=
  (checkpoint_operations_preserve_invariant
      { UploadSessionState.create "sid" "now" "dir" "meta" "api" with
        files_total := 2 }
      "sid" "now" "dir" "meta" "api" "a.tif" "boom" "dup" 7).2.1
    (by unfold CheckpointInv; decide) (by decide) (by decide) (by decide)
    (by decide)

/-- C9: `mark_completed` is not idempotent.  Calling it twice with the same
filename (one not present in the failed map) appends the filename to the
completed list twice, so the count of that filename rises by two and
`files_pending` falls by two — on a fresh record this makes pending
negative even though the file had only one terminal outcome. -/
theorem mark_completed_twice_double_counts (s : UploadSessionState) (f : String)
    (i : Int) (h : f ∉ Dict.keys s.files_failed) :
    ((s.mark_completed f i).mark_completed f i).files_completed.count f
        = s.files_completed.count f + 2 ∧
    ((s.mark_completed f i).mark_completed f i).files_pending
        = s.files_pending - 2 := by
  have hEr : s.files_failed.erase f = s.files_failed := Dict.erase_of_not_mem _ _ h
  constructor
  · simp [List.count_append]
  · simp only [UploadSessionState.files_pending, mark_completed_total,
      mark_completed_completed, mark_completed_failed, mark_completed_skipped,
      hEr, List.length_append, List.length_singleton]
    push_cast
    ring

/-- Witness for C9 on a freshly created record: pending becomes −2. -/
theorem mark_completed_twice_double_counts_witness :
    ((((UploadSessionState.create "sid" "now" "dir" "meta" "api").mark_completed
          "a.tif" 7).mark_completed "a.tif" 7).files_completed.count "a.tif"
        = (UploadSessionState.create "sid" "now" "dir" "meta"
            "api").files_completed.count "a.tif" + 2 ∧
      (((UploadSessionState.create "sid" "now" "dir" "meta" "api").mark_completed
          "a.tif" 7).mark_completed "a.tif" 7).files_pending
        = (UploadSessionState.create "sid" "now" "dir" "meta"
            "api").files_pending - 2) ∧
    (((UploadSessionState.create "sid" "now" "dir" "meta" "api").mark_completed
        "a.tif" 7).mark_completed "a.tif" 7).files_pending = -2 :=
  ⟨mark_completed_twice_double_counts
      (UploadSessionState.create "sid" "now" "dir" "meta" "api") "a.tif" 7
      (by decide),
    by decide⟩

/-- JSON values as written by `json.dump` of `asdict(self)`: the saved
checkpoint only ever contains strings, integers, arrays of strings and
string-keyed objects. -/
inductive JVal where
  | str (s : String)
  | int (n : Int)
  | arr (xs : List JVal)
  | obj (fields : List (String × JVal))

/-- Field lookup in a parsed JSON object (`data["k"]`). -/
def jGet (fields : List (String × JVal)) (k : String) : Option JVal :=
  (fields.find? (fun p => p.1 == k)).map Prod.snd

def decodeStr : JVal → Option String
  | .str s => some s
  | _ => none

def decodeInt : JVal → Option Int
  | .int n => some n
  | _ => none

def decodeStrs : List JVal → Option (List String)
  | [] => some []
  | x :: rest =>
    match decodeStr x, decodeStrs rest with
    | some s, some l => some (s :: l)
    | _, _ => none

def decodeStrList : JVal → Option (List String)
  | .arr xs => decodeStrs xs
  | _ => none

def decodeStrPairs : List (String × JVal) → Option (Dict String)
  | [] => some []
  | p :: rest =>
    match decodeStr p.2, decodeStrPairs rest with
    | some v, some l => some ((p.1, v) :: l)
    | _, _ => none

def decodeStrDict : JVal → Option (Dict String)
  | .obj fs => decodeStrPairs fs
  | _ => none

def decodeIntPairs : List (String × JVal) → Option (Dict Int)
  | [] => some []
  | p :: rest =>
    match decodeInt p.2, decodeIntPairs rest with
    | some v, some l => some ((p.1, v) :: l)
    | _, _ => none

def decodeIntDict : JVal → Option (Dict Int)
  | .obj fs => decodeIntPairs fs
  | _ => none

/-- `save`: `json.dump(asdict(self))` — the JSON object written to disk,
with the fields in dataclass declaration order. -/
def UploadSessionState.save (s : UploadSessionState) : JVal :=
  .obj [
    ("session_id", .str s.session_id),
    ("created_at", .str s.created_at),
    ("data_directory", .str s.data_directory),
    ("metadata_file", .str s.metadata_file),
    ("api_url", .str s.api_url),
    ("files_total", .int s.files_total),
    ("files_completed", .arr (s.files_completed.map JVal.str)),
    ("files_failed", .obj (s.files_failed.map (fun p => (p.1, JVal.str p.2)))),
    ("files_skipped", .obj (s.files_skipped.map (fun p => (p.1, JVal.str p.2)))),
    ("file_hashes", .obj (s.file_hashes.map (fun p => (p.1, JVal.str p.2)))),
    ("dataset_ids", .obj (s.dataset_ids.map (fun p => (p.1, JVal.int p.2))))]

/-- `load`: `cls(**json.load(f))` — reconstruct the record from the parsed
JSON object, reading each field with the shape `asdict` gives it. -/
def UploadSessionState.load (j : JVal) : Option UploadSessionState :=
  match j with
  | .obj fs => do
      let session_id ← jGet fs "session_id" >>= decodeStr
      let created_at ← jGet fs "created_at" >>= decodeStr
      let data_directory ← jGet fs "data_directory" >>= decodeStr
      let metadata_file ← jGet fs "metadata_file" >>= decodeStr
      let api_url ← jGet fs "api_url" >>= decodeStr
      let files_total ← jGet fs "files_total" >>= decodeInt
      let files_completed ← jGet fs "files_completed" >>= decodeStrList
      let files_failed ← jGet fs "files_failed" >>= decodeStrDict
      let files_skipped ← jGet fs "files_skipped" >>= decodeStrDict
      let file_hashes ← jGet fs "file_hashes" >>= decodeStrDict
      let dataset_ids ← jGet fs "dataset_ids" >>= decodeIntDict
      pure { session_id := session_id
             created_at := created_at
             data_directory := data_directory
             metadata_file := metadata_file
             api_url := api_url
             files_total := files_total
             files_completed := files_completed
             files_failed := files_failed
             files_skipped := files_skipped
             file_hashes := file_hashes
             dataset_ids := dataset_ids }
  | _ => none

theorem decodeStrList_map_str (l : List String) :
    decodeStrList (.arr (l.map JVal.str)) = some l := by
  rw [decodeStrList]
  induction l with
  | nil => rfl
  | cons x rest ih =>
    rw [List.map_cons, decodeStrs, ih]
    rfl

theorem decodeStrDict_map_str (d : Dict String) :
    decodeStrDict (.obj (d.map (fun p => (p.1, JVal.str p.2)))) = some d := by
  rw [decodeStrDict]
  induction d with
  | nil => rfl
  | cons x rest ih =>
    rw [List.map_cons, decodeStrPairs, ih]
    rfl

theorem decodeIntDict_map_int (d : Dict Int) :
    decodeIntDict (.obj (d.map (fun p => (p.1, JVal.int p.2)))) = some d := by
  rw [decodeIntDict]
  induction d with
  | nil => rfl
  | cons x rest ih =>
    rw [List.map_cons, decodeIntPairs, ih]
    rfl

/-- C6: saving a checkpoint record and loading the saved file reproduces a
record equal to the original field for field, including the completed list
and the failed, skipped, hash and dataset-id maps. -/
theorem load_save_roundtrip (s : UploadSessionState) :
    UploadSessionState.load s.save = some s := by
  simp [UploadSessionState.save, UploadSessionState.load, jGet, List.find?,
    decodeStr, decodeInt, decodeStrList_map_str, decodeStrDict_map_str,
    decodeIntDict_map_int]

/-- `get_session_file_path`: the fixed checkpoint location inside the target
directory (`data_directory / ".deadtrees-upload-session.json"`, with path
join written as `/` between a directory without trailing slash and the
name). -/
def get_session_file_path (data_directory : String) : String :=
  data_directory ++ "/.deadtrees-upload-session.json"

/-- `find_existing_session`: probe the filesystem (modelled as a map from
paths to the parsed JSON contents of existing files) at the fixed session
path; a missing file, or a file `load` rejects, yields `none`. -/
def find_existing_session (fs : String → Option JVal) (data_directory : String) :
    Option UploadSessionState :=
  match fs (get_session_file_path data_directory) with
  | none => none
  | some j => UploadSessionState.load j

/-- C4 counterexample: the checkpoint file is not stored at
`<targetDir>/.upload-session.json`; for the directory `"plots"` the session
path differs from the claimed one. -/
theorem session_path_is_not_upload_session_json :
    get_session_file_path "plots" ≠ "plots" ++ "/.upload-session.json" := by
  decide

/-- C4 (amended): for every target directory, the checkpoint file is stored
at the fixed path `<targetDir>/.deadtrees-upload-session.json`, and a second
invocation against the same directory discovers an existing checkpoint at
exactly that path. -/
theorem session_path_fixed_and_discovered (d : String)
    (fs : String → Option JVal) (s : UploadSessionState) :
    get_session_file_path d = d ++ "/.deadtrees-upload-session.json" ∧
    (fs (get_session_file_path d) = some s.save →
      find_existing_session fs d = some s) := by
  constructor
  · rfl
  · intro h
    rw [find_existing_session, h]
    exact load_save_roundtrip s

/-- Witness for the amended C4 theorem: a filesystem holding a saved
checkpoint at the fixed path under `"plots"` is rediscovered. -/
theorem session_path_fixed_and_discovered_witness :
    find_existing_session
        (fun p =>
          if p == "plots/.deadtrees-upload-session.json" then
            some (UploadSessionState.create "sid" "now" "plots" "meta" "api").save
          else none)
        "plots"
      = some (UploadSessionState.create "sid" "now" "plots" "meta" "api") :=
  (session_path_fixed_and_discovered "plots"
      (fun p =>
        if p == "plots/.deadtrees-upload-session.json" then
          some (UploadSessionState.create "sid" "now" "plots" "meta" "api").save
        else none)
      (UploadSessionState.create "sid" "now" "plots" "meta" "api")).2
    (by rfl)

/-- A hasher accumulating the bytes fed to it, modelling
`hashlib.sha256()`/`update` without interpreting the compression function:
the digest of a run of updates is the (abstract) hash of the concatenation
of everything fed. -/
structure Hasher where
  fed : List Nat

def Hasher.update (h : Hasher) (data : List Nat) : Hasher :=
  ⟨h.fed ++ data⟩

def Hasher.hexdigest (hash : List Nat → String) (h : Hasher) : String :=
  hash h.fed

/-- `str(file_size).encode()`: the ASCII bytes of the decimal length. -/
def sizeBytes (n : Nat) : List Nat :=
  (toString n).toList.map Char.toNat

/-- The default sampling window of `get_file_identifier`: 10 MiB. -/
def DEFAULT_SAMPLE_SIZE : Nat := 10 * 1024 * 1024

/-- `get_file_identifier` from `dedup.py`: hash the decimal size string,
then `f.read(sample_size)` (the first `min(sample_size, size)` bytes), then
— only when `size > sample_size` — the bytes from `f.seek(-min(sample_size,
size), 2); f.read(sample_size)`.  The file is its byte list; the SHA-256
digest function is an abstract parameter. -/
def get_file_identifier (hash : List Nat → String) (file : List Nat)
    (sample_size : Nat) : String :=
  let file_size := file.length
  let hasher : Hasher := ⟨[]⟩
  let hasher := hasher.update (sizeBytes file_size)
  let hasher := hasher.update (file.take sample_size)
  let hasher :=
    if sample_size < file_size then
      hasher.update ((file.drop (file_size - min sample_size file_size)).take
        sample_size)
    else hasher
  hasher.hexdigest hash

/-- C5: the fingerprint is the digest of — in order — the decimal string of
the byte length, the first `min(10 MiB, size)` bytes, and (only when the
size exceeds 10 MiB) the last 10 MiB; it is thereby a deterministic pure
function of the file's bytes. -/
theorem fingerprint_feeds_size_head_tail (hash : List Nat → String)
    (file : List Nat) :
    get_file_identifier hash file DEFAULT_SAMPLE_SIZE =
      hash (sizeBytes file.length ++ file.take DEFAULT_SAMPLE_SIZE ++
        (if DEFAULT_SAMPLE_SIZE < file.length then
          file.drop (file.length - DEFAULT_SAMPLE_SIZE) else [])) := by
  rw [get_file_identifier]
  by_cases h : DEFAULT_SAMPLE_SIZE < file.length
  · have hmin : min DEFAULT_SAMPLE_SIZE file.length = DEFAULT_SAMPLE_SIZE :=
      min_eq_left (le_of_lt h)
    have hlen : (file.drop (file.length - DEFAULT_SAMPLE_SIZE)).length
        ≤ DEFAULT_SAMPLE_SIZE := by
      rw [List.length_drop]
      omega
    simp only [if_pos h, hmin, Hasher.update, Hasher.hexdigest,
      List.take_of_length_le hlen, List.nil_append, List.append_assoc]
  · simp only [if_neg h, Hasher.update, Hasher.hexdigest, List.nil_append,
      List.append_nil, List.append_assoc]

/-- `AuthSession` from `auth.py`.  The Unix-timestamp expiry is modelled as
an integer instant. -/
structure AuthSession where
  access_token : String
  refresh_token : String
  user_id : String
  expires_at : Int
  supabase_url : String
  supabase_key : String
  deriving DecidableEq, Repr

/-- The JSON body of a refresh response, with the three fields `refresh()`
reads (each optional, `data.get`). -/
structure RefreshBody where
  access_token : Option String
  refresh_token : Option String
  expires_in : Option Int
  deriving DecidableEq, Repr

/-- Outcome of the single POST `refresh()` performs: a connection failure,
any other raised exception (timeout, unparsable JSON, ...), or a response
with a status code and parsed body. -/
inductive RefreshWire where
  | connectError
  | exnDuringRequest (msg : String)
  | response (status : Nat) (body : RefreshBody)
  deriving DecidableEq, Repr

/-- `is_expired`: true when `now ≥ expires_at − buffer_seconds`. -/
def AuthSession.is_expired (s : AuthSession) (now : Int)
    (buffer_seconds : Int) : Bool :=
  s.expires_at - buffer_seconds ≤ now

/-- `refresh()` in state-passing form: the returned pair is the session
after the call and the message of the `AuthError` raised, if one was.
Mirrors the Python control flow: a connection error or any exception during
the request raises before any field is written; a status ≥ 400 raises
before any field is written; otherwise the three fields are assigned from
the parsed body (falling back to the prior token values and to 3600 s). -/
def AuthSession.refresh (s : AuthSession) (now : Int) (wire : RefreshWire) :
    AuthSession × Option String :=
  match wire with
  | .connectError => (s, some "Could not connect to Supabase for token refresh")
  | .exnDuringRequest m => (s, some ("Token refresh failed: " ++ m))
  | .response status body =>
    if 400 ≤ status then
      (s, some "Failed to refresh token - please re-authenticate")
    else
      ({ s with
          access_token := body.access_token.getD s.access_token
          refresh_token := body.refresh_token.getD s.refresh_token
          expires_at := now + body.expires_in.getD 3600 }, none)

/-- C7: `refresh` either succeeds — and then the token, refresh token and
expiry are all replaced in the same call, from the accepted response — or
raises an authentication error, and then every field of the session is
exactly as before the call (no partial overwrite), for every transport
failure and every rejected status. -/
theorem refresh_replaces_all_or_nothing (s : AuthSession) (now : Int)
    (wire : RefreshWire) :
    ((AuthSession.refresh s now wire).2.isSome = true →
      (AuthSession.refresh s now wire).1 = s) ∧
    ((AuthSession.refresh s now wire).2 = none →
      ∃ status body, wire = RefreshWire.response status body ∧ status < 400 ∧
        (AuthSession.refresh s now wire).1 =
          { s with
            access_token := body.access_token.getD s.access_token
            refresh_token := body.refresh_token.getD s.refresh_token
            expires_at := now + body.expires_in.getD 3600 }) := by
  constructor
  · intro _
    match wire with
    | .connectError => rfl
    | .exnDuringRequest m => rfl
    | .response status body =>
      rw [AuthSession.refresh]
      split
      · rfl
      · simp_all [AuthSession.refresh]
  · intro h
    match wire with
    | .connectError => simp [AuthSession.refresh] at h
    | .exnDuringRequest m => simp [AuthSession.refresh] at h
    | .response status body =>
      rw [AuthSession.refresh] at h ⊢
      by_cases hs : 400 ≤ status
      · rw [if_pos hs] at h
        simp at h
      · rw [if_neg hs] at h ⊢
        exact ⟨status, body, rfl, by omega, rfl⟩

/-- Witness for C7: a rejected status leaves a concrete session untouched,
and an accepted response replaces all three fields. -/
theorem refresh_replaces_all_or_nothing_witness :
    (AuthSession.refresh ⟨"tok", "ref", "uid", 1000, "url", "key"⟩ 5
        (RefreshWire.response 401 ⟨some "t2", some "r2", some 60⟩)).1 =
      ⟨"tok", "ref", "uid", 1000, "url", "key"⟩ :=
  (refresh_replaces_all_or_nothing ⟨"tok", "ref", "uid", 1000, "url", "key"⟩ 5
      (RefreshWire.response 401 ⟨some "t2", some "r2", some 60⟩)).1 (by decide)

/-- Outcome of one chunk POST in `upload_file`: an accepted response
(status < 400, carrying the parsed `"id"` field of its JSON body if any), a
401, another rejected status (carrying its error detail), or a raised
transport exception. -/
inductive SendResult where
  | ok (body : Option Int)
  | unauthorized (body : Option Int)
  | httpError (detail : String)
  | timeout
  | connectError
  deriving DecidableEq, Repr

/-- The credential argument of `upload_file`: a bare token string or an
`AuthSession` with a refresh path. -/
inductive Cred where
  | bare
  | session
  deriving DecidableEq, Repr

/-- `UploadResult` from `models.py`, restricted to the fields `upload_file`
sets. -/
structure UploadResult where
  filename : String
  success : Bool
  dataset_id : Option Int
  error : Option String
  deriving DecidableEq, Repr

def chunkTag (i n : Nat) : String :=
  "chunk " ++ toString i ++ "/" ++ toString n

def timeoutMsg (i n : Nat) : String :=
  "Timeout on " ++ chunkTag i n

def connectMsg (i n : Nat) : String :=
  "Connection error on " ++ chunkTag i n

def uploadFailedMsg (i n : Nat) (detail : String) : String :=
  "Upload failed (" ++ chunkTag i n ++ "): " ++ detail

/-- How the per-chunk retry loop ends: fall through to the next chunk
(with the updated send/refresh counters and the current value of the
`response` variable), return the file failure recorded in `last_error`, or
return the authentication failure immediately. -/
inductive ChunkRes where
  | next (sends refreshes : Nat) (response : Option SendResult)
  | failFile (err : String) (sends refreshes : Nat)
  | authFail (sends refreshes : Nat)
  deriving DecidableEq, Repr

/-- The `for retry in range(max_retries)` loop of `upload_file` for the
chunk at `chunkIdx`.  `net` maps the running send counter to the outcome of
that POST; `refOk` maps the running refresh counter to whether that
`token.refresh()` call succeeds.  A fresh credential is fetched before
every attempt (`get_token()`), modelled as the attempt itself.  On 401 with
a refreshable credential the refresh-and-retry consumes the next loop
iteration (`continue`); with a bare token, or when the refresh raises, the
whole file returns an authentication failure.  Transport errors and other
rejected statuses record `last_error` and retry; exhaustion with a recorded
error fails the file, exhaustion without one falls through. -/
def chunkLoop (cred : Cred) (net : Nat → SendResult) (refOk : Nat → Bool)
    (chunkIdx chunksTotal : Nat) :
    Nat → Nat → Nat → Option String → Option SendResult → ChunkRes
  | 0, sends, refreshes, lastError, response =>
    match lastError with
    | some e => .failFile e sends refreshes
    | none => .next sends refreshes response
  | retriesLeft + 1, sends, refreshes, lastError, response =>
    match net sends with
    | .ok b => .next (sends + 1) refreshes (some (.ok b))
    | .unauthorized b =>
      match cred with
      | .bare => .authFail (sends + 1) refreshes
      | .session =>
        if refOk refreshes then
          chunkLoop cred net refOk chunkIdx chunksTotal retriesLeft (sends + 1)
            (refreshes + 1) lastError (some (.unauthorized b))
        else .authFail (sends + 1) (refreshes + 1)
    | .httpError detail =>
      chunkLoop cred net refOk chunkIdx chunksTotal retriesLeft (sends + 1)
        refreshes (some (uploadFailedMsg (chunkIdx + 1) chunksTotal detail))
        (some (.httpError detail))
    | .timeout =>
      chunkLoop cred net refOk chunkIdx chunksTotal retriesLeft (sends + 1)
        refreshes (some (timeoutMsg (chunkIdx + 1) chunksTotal)) response
    | .connectError =>
      chunkLoop cred net refOk chunkIdx chunksTotal retriesLeft (sends + 1)
        refreshes (some (connectMsg (chunkIdx + 1) chunksTotal)) response

/-- `response.json().get("id")` on the response the final chunk's loop
ended with.  Only accepted and 401 responses can end a loop, so the other
branches are unreachable there. -/
def respId : SendResult → Option Int
  | .ok b => b
  | .unauthorized b => b
  | _ => none

/-- Result of the transfer engine, instrumented with how many chunk POSTs
and how many 401-driven `token.refresh()` calls were made. -/
structure EngineRes where
  result : UploadResult
  sends : Nat
  refreshes : Nat
  deriving DecidableEq, Repr

/-- The `for chunk_index in range(chunks_total)` loop of `upload_file`.
`remaining` counts the chunks still to process (the current index is
`chunksTotal - remaining`); the final chunk returns the success result read
from the last response; falling off the loop (only possible with zero
chunks) returns the no-response failure. -/
def uploadLoop (filename : String) (cred : Cred) (net : Nat → SendResult)
    (refOk : Nat → Bool) (chunksTotal maxRetries : Nat) :
    Nat → Nat → Nat → Option SendResult → EngineRes
  | 0, sends, refreshes, _ =>
    ⟨⟨filename, false, none, some "Upload completed but no response received"⟩,
      sends, refreshes⟩
  | remaining + 1, sends, refreshes, response =>
    match chunkLoop cred net refOk (chunksTotal - (remaining + 1)) chunksTotal
        maxRetries sends refreshes none response with
    | .authFail sc rc =>
      ⟨⟨filename, false, none, some "Authentication failed - please re-login"⟩,
        sc, rc⟩
    | .failFile e sc rc => ⟨⟨filename, false, none, some e⟩, sc, rc⟩
    | .next sc rc resp2 =>
      if remaining = 0 then
        match resp2 with
        | some r => ⟨⟨filename, true, respId r, none⟩, sc, rc⟩
        | none =>
          ⟨⟨filename, false, none,
            some "Upload error: name response is not defined"⟩, sc, rc⟩
      else uploadLoop filename cred net refOk chunksTotal maxRetries remaining
        sc rc resp2

/-- Default chunk size of `upload_file`: 100 MiB. -/
def DEFAULT_CHUNK_SIZE : Nat := 100 * 1024 * 1024

/-- `upload_file`, instrumented: guard the missing-path and missing-file
cases, compute `chunks_total = ceil(file_size / chunk_size)` and run the
chunk loop from index 0. -/
def uploadEngine (filename : String) (hasFilePath fileExists : Bool)
    (fileSize : Nat) (cred : Cred) (net : Nat → SendResult)
    (refOk : Nat → Bool) (chunk_size max_retries : Nat) : EngineRes :=
  if !hasFilePath then ⟨⟨filename, false, none, some "No file path set"⟩, 0, 0⟩
  else if !fileExists then
    ⟨⟨filename, false, none, some "File does not exist"⟩, 0, 0⟩
  else
    let chunks_total := (fileSize + chunk_size - 1) / chunk_size
    uploadLoop filename cred net refOk chunks_total max_retries chunks_total 0 0
      none

/-- `upload_file`: the `UploadResult` the engine returns. -/
def upload_file (filename : String) (hasFilePath fileExists : Bool)
    (fileSize : Nat) (cred : Cred) (net : Nat → SendResult)
    (refOk : Nat → Bool) (chunk_size max_retries : Nat) : UploadResult :=
  (uploadEngine filename hasFilePath fileExists fileSize cred net refOk
    chunk_size max_retries).result

/-- C10: for an existing file of size zero, `upload_file` computes zero
chunks, performs no chunk POST at all, and returns the failure outcome
`"Upload completed but no response received"` — an empty file can never
upload successfully. -/
theorem empty_file_never_uploads (filename : String) (cred : Cred)
    (net : Nat → SendResult) (refOk : Nat → Bool) :
    (0 + DEFAULT_CHUNK_SIZE - 1) / DEFAULT_CHUNK_SIZE = 0 ∧
    upload_file filename true true 0 cred net refOk DEFAULT_CHUNK_SIZE 3 =
      ⟨filename, false, none,
        some "Upload completed but no response received"⟩ ∧
    (uploadEngine filename true true 0 cred net refOk DEFAULT_CHUNK_SIZE
      3).sends = 0 :=
  ⟨rfl, rfl, rfl⟩

/-- A transient transport error: the POST raised a timeout or a connection
failure. -/
def transient (r : SendResult) : Prop :=
  r = SendResult.timeout ∨ r = SendResult.connectError

/-- An attempt outcome the retry loop records in `last_error` and retries:
transient transport errors and rejected (non-401) statuses. -/
def chunkFailureEvent (r : SendResult) : Prop :=
  r = SendResult.timeout ∨ r = SendResult.connectError ∨
    ∃ d, r = SendResult.httpError d

/-- The string `s` names chunk `i` of `n`: it contains `"chunk i/n"`. -/
def mentionsChunk (s : String) (i n : Nat) : Prop :=
  ∃ pre post, s = pre ++ chunkTag i n ++ post

theorem mentionsChunk_timeoutMsg (i n : Nat) :
    mentionsChunk (timeoutMsg i n) i n :=
  ⟨"Timeout on ", "", by simp [timeoutMsg]⟩

theorem mentionsChunk_connectMsg (i n : Nat) :
    mentionsChunk (connectMsg i n) i n :=
  ⟨"Connection error on ", "", by simp [connectMsg]⟩

theorem mentionsChunk_uploadFailedMsg (i n : Nat) (d : String) :
    mentionsChunk (uploadFailedMsg i n d) i n :=
  ⟨"Upload failed (", "): " ++ d, by simp [uploadFailedMsg, String.append_assoc]⟩

theorem chunks_total_one (fileSize chunk_size : Nat) (h0 : 0 < fileSize)
    (h1 : fileSize ≤ chunk_size) :
    (fileSize + chunk_size - 1) / chunk_size = 1 :=
  Nat.div_eq_of_lt_le (by omega) (by omega)

theorem chunks_total_two (fileSize chunk_size : Nat)
    (h0 : chunk_size < fileSize) (h1 : fileSize ≤ 2 * chunk_size) :
    (fileSize + chunk_size - 1) / chunk_size = 2 :=
  Nat.div_eq_of_lt_le (by omega) (by omega)

/-- Three consecutive failing attempts exhaust the retry budget of 3 and
fail the file with the message recorded by the last attempt, which names
the chunk position. -/
theorem chunkLoop_three_failures (cred : Cred) (net : Nat → SendResult)
    (refOk : Nat → Bool) (i n sends refreshes : Nat)
    (resp : Option SendResult) (h0 : chunkFailureEvent (net sends))
    (h1 : chunkFailureEvent (net (sends + 1)))
    (h2 : chunkFailureEvent (net (sends + 2))) :
    ∃ e, chunkLoop cred net refOk i n 3 sends refreshes none resp =
        ChunkRes.failFile e (sends + 3) refreshes ∧
      mentionsChunk e (i + 1) n := by
  have step : ∀ sends2 lastError resp2, chunkFailureEvent (net sends2) →
      ∀ retriesLeft, ∃ le2 resp3,
        chunkLoop cred net refOk i n (retriesLeft + 1) sends2 refreshes
            lastError resp2 =
          chunkLoop cred net refOk i n retriesLeft (sends2 + 1) refreshes
            (some le2) resp3 ∧
        mentionsChunk le2 (i + 1) n := by
    intro sends2 lastError resp2 hev retriesLeft
    rcases hev with hev | hev | ⟨d, hev⟩
    · exact ⟨timeoutMsg (i + 1) n, resp2,
        by rw [chunkLoop, hev], mentionsChunk_timeoutMsg (i + 1) n⟩
    · exact ⟨connectMsg (i + 1) n, resp2,
        by rw [chunkLoop, hev], mentionsChunk_connectMsg (i + 1) n⟩
    · exact ⟨uploadFailedMsg (i + 1) n d, some (SendResult.httpError d),
        by rw [chunkLoop, hev], mentionsChunk_uploadFailedMsg (i + 1) n d⟩
  obtain ⟨e0, r0, he0, _⟩ := step sends none resp h0 2
  obtain ⟨e1, r1, he1, _⟩ := step (sends + 1) (some e0) r0 h1 1
  obtain ⟨e2, r2, he2, hm2⟩ := step (sends + 2) (some e1) r1 h2 0
  refine ⟨e2, ?_, hm2⟩
  rw [he0, he1]
  rw [show sends + 1 + 1 = sends + 2 from rfl] at he2
  rw [he2, chunkLoop]

/-- C3: the per-chunk retry policy of `upload_file`.  (a) A single-chunk
file whose POST fails with transient transport errors on the first two
attempts and is accepted on the third uploads successfully.  (b) For every
chunk position, three consecutive failing attempts exhaust the retry
budget of 3 and fail the file with an error naming that chunk's index and
the chunk total.  (c) At the whole-file level: in a two-chunk file whose
first chunk is accepted at once and whose second chunk fails all three
attempts, the outcome is a failure naming chunk 2 of 2. -/
theorem chunk_retry_policy (filename : String) (fileSize fileSize2 : Nat)
    (cred : Cred) (net net2 : Nat → SendResult) (refOk : Nat → Bool)
    (b : Option Int) (i n sends refreshes : Nat) (resp : Option SendResult) :
    (0 < fileSize → fileSize ≤ DEFAULT_CHUNK_SIZE → transient (net 0) →
      transient (net 1) → net 2 = SendResult.ok b →
      upload_file filename true true fileSize cred net refOk
          DEFAULT_CHUNK_SIZE 3 =
        ⟨filename, true, b, none⟩) ∧
    (chunkFailureEvent (net sends) → chunkFailureEvent (net (sends + 1)) →
      chunkFailureEvent (net (sends + 2)) →
      ∃ e, chunkLoop cred net refOk i n 3 sends refreshes none resp =
          ChunkRes.failFile e (sends + 3) refreshes ∧
        mentionsChunk e (i + 1) n) ∧
    (DEFAULT_CHUNK_SIZE < fileSize2 → fileSize2 ≤ 2 * DEFAULT_CHUNK_SIZE →
      net2 0 = SendResult.ok none → chunkFailureEvent (net2 1) →
      chunkFailureEvent (net2 2) → chunkFailureEvent (net2 3) →
      ∃ e, upload_file filename true true fileSize2 cred net2 refOk
          DEFAULT_CHUNK_SIZE 3 =
        ⟨filename, false, none, some e⟩ ∧ mentionsChunk e 2 2) := by
  refine ⟨?_, ?_, ?_⟩
  · intro h0 h1 ht0 ht1 hok
    have hct := chunks_total_one fileSize DEFAULT_CHUNK_SIZE h0 h1
    rw [upload_file, uploadEngine]
    simp only [Bool.not_true, Bool.false_eq_true, if_false, hct]
    rcases ht0 with ht0 | ht0 <;> rcases ht1 with ht1 | ht1 <;>
      simp [uploadLoop, chunkLoop, ht0, ht1, hok, respId]
  · exact chunkLoop_three_failures cred net refOk i n sends refreshes resp
  · intro h0 h1 hok hf1 hf2 hf3
    have hct := chunks_total_two fileSize2 DEFAULT_CHUNK_SIZE h0 h1
    obtain ⟨e, he, hm⟩ :=
      chunkLoop_three_failures cred net2 refOk 1 2 1 0
        (some (SendResult.ok none)) hf1 hf2 hf3
    refine ⟨e, ?_, hm⟩
    rw [upload_file, uploadEngine]
    simp only [Bool.not_true, Bool.false_eq_true, if_false, hct]
    rw [uploadLoop, show (2 : Nat) - (1 + 1) = 0 from rfl, chunkLoop, hok]
    show (uploadLoop filename cred net2 refOk 2 3 1 (0 + 1) 0
        (some (SendResult.ok none))).result =
      UploadResult.mk filename false none (some e)
    rw [uploadLoop, show (2 : Nat) - (0 + 1) = 1 from rfl,
      show (0 : Nat) + 1 = 1 from rfl, he]

/-- Witness for C3 at concrete traces: timeout, connection error, then
success yields success; three failures on the sole chunk yield a failure
naming chunk 1/1; an accepted first chunk followed by three failures on
the second yields a failure naming chunk 2/2. -/
theorem chunk_retry_policy_witness :
    (upload_file "a.tif" true true 5 Cred.bare
        (fun k => if k = 0 then SendResult.timeout
          else if k = 1 then SendResult.connectError
          else SendResult.ok (some 7))
        (fun _ => true) DEFAULT_CHUNK_SIZE 3 =
      ⟨"a.tif", true, some 7, none⟩) ∧
    (∃ e, chunkLoop Cred.bare (fun _ => SendResult.timeout) (fun _ => true)
        0 1 3 0 0 none none = ChunkRes.failFile e (0 + 3) 0 ∧
      mentionsChunk e (0 + 1) 1) ∧
    (∃ e, upload_file "a.tif" true true (DEFAULT_CHUNK_SIZE + 5) Cred.bare
        (fun k => if k = 0 then SendResult.ok none else SendResult.timeout)
        (fun _ => true) DEFAULT_CHUNK_SIZE 3 =
      ⟨"a.tif", false, none, some e⟩ ∧ mentionsChunk e 2 2) := by
  obtain ⟨p1, p2, p3⟩ := chunk_retry_policy "a.tif" 5 (DEFAULT_CHUNK_SIZE + 5)
    Cred.bare
    (fun k => if k = 0 then SendResult.timeout
      else if k = 1 then SendResult.connectError
      else SendResult.ok (some 7))
    (fun k => if k = 0 then SendResult.ok none else SendResult.timeout)
    (fun _ => true) (some 7) 0 1 0 0 none
  refine ⟨p1 (by decide) (by decide) (Or.inl rfl) (Or.inr rfl) rfl, ?_, ?_⟩
  · obtain ⟨q1, q2, q3⟩ := chunk_retry_policy "a.tif" 5 (DEFAULT_CHUNK_SIZE + 5)
      Cred.bare (fun _ => SendResult.timeout)
      (fun k => if k = 0 then SendResult.ok none else SendResult.timeout)
      (fun _ => true) (some 7) 0 1 0 0 none
    exact q2 (Or.inl rfl) (Or.inl rfl) (Or.inl rfl)
  · exact p3 (by decide) (by decide) rfl (Or.inl rfl) (Or.inl rfl) (Or.inl rfl)

/-- C2 counterexample: a 401 received on the final retry attempt does not
force a refresh-and-retry of the chunk.  With every POST answered 401 and
every refresh succeeding, the three attempts consume the budget (three
sends, three refreshes), no retry follows the third refresh, and — because
the 401 path never records `last_error` — the chunk is treated as sent: the
file reports success with no dataset id instead of being retried or
aborted with an authentication error. -/
theorem unauthorized_on_final_attempt_not_retried :
    uploadEngine "a.tif" true true 5 Cred.session
        (fun _ => SendResult.unauthorized none) (fun _ => true)
        DEFAULT_CHUNK_SIZE 3 =
      ⟨⟨"a.tif", true, none, none⟩, 3, 3⟩ := rfl

/-- C2 (amended): when a chunk POST is answered 401: with a bare token the
whole file is aborted at once with the authentication-error outcome — one
send, no refresh, no further per-chunk retries; with a refreshable
credential whose refresh raises, likewise — one send, one refresh attempt;
with a refreshable credential whose refresh succeeds, the same chunk is
resent using the refreshed credential, but this retry consumes one of the
`max_retries` attempts rather than being forced unconditionally (a 401
arriving on the final attempt is followed by no retry). -/
theorem unauthorized_chunk_handling (filename : String) (fileSize : Nat)
    (net : Nat → SendResult) (refOk : Nat → Bool) (b c : Option Int)
    (h0 : 0 < fileSize) (h1 : fileSize ≤ DEFAULT_CHUNK_SIZE)
    (h401 : net 0 = SendResult.unauthorized b) :
    (uploadEngine filename true true fileSize Cred.bare net refOk
        DEFAULT_CHUNK_SIZE 3 =
      ⟨⟨filename, false, none,
          some "Authentication failed - please re-login"⟩, 1, 0⟩) ∧
    (refOk 0 = false →
      uploadEngine filename true true fileSize Cred.session net refOk
          DEFAULT_CHUNK_SIZE 3 =
        ⟨⟨filename, false, none,
            some "Authentication failed - please re-login"⟩, 1, 1⟩) ∧
    (refOk 0 = true → net 1 = SendResult.ok c →
      uploadEngine filename true true fileSize Cred.session net refOk
          DEFAULT_CHUNK_SIZE 3 =
        ⟨⟨filename, true, c, none⟩, 2, 1⟩) := by
  have hct := chunks_total_one fileSize DEFAULT_CHUNK_SIZE h0 h1
  refine ⟨?_, ?_, ?_⟩
  · rw [uploadEngine]
    simp [uploadLoop, chunkLoop, hct, h401]
  · intro hr
    rw [uploadEngine]
    simp [uploadLoop, chunkLoop, hct, h401, hr]
  · intro hr hok
    rw [uploadEngine]
    simp [uploadLoop, chunkLoop, hct, h401, hr, hok, respId]

/-- Witness for the amended C2 theorem at concrete traces. -/
theorem unauthorized_chunk_handling_witness :
    (uploadEngine "a.tif" true true 5 Cred.bare
        (fun k => if k = 0 then SendResult.unauthorized none
          else SendResult.ok (some 9))
        (fun _ => false) DEFAULT_CHUNK_SIZE 3 =
      ⟨⟨"a.tif", false, none,
          some "Authentication failed - please re-login"⟩, 1, 0⟩) ∧
    (uploadEngine "a.tif" true true 5 Cred.session
        (fun k => if k = 0 then SendResult.unauthorized none
          else SendResult.ok (some 9))
        (fun _ => false) DEFAULT_CHUNK_SIZE 3 =
      ⟨⟨"a.tif", false, none,
          some "Authentication failed - please re-login"⟩, 1, 1⟩) ∧
    (uploadEngine "a.tif" true true 5 Cred.session
        (fun k => if k = 0 then SendResult.unauthorized none
          else SendResult.ok (some 9))
        (fun _ => true) DEFAULT_CHUNK_SIZE 3 =
      ⟨⟨"a.tif", true, some 9, none⟩, 2, 1⟩) := by
  refine ⟨?_, ?_, ?_⟩
  · exact (unauthorized_chunk_handling "a.tif" 5
      (fun k => if k = 0 then SendResult.unauthorized none
        else SendResult.ok (some 9))
      (fun _ => false) none (some 9) (by decide) (by decide) rfl).1
  · exact (unauthorized_chunk_handling "a.tif" 5
      (fun k => if k = 0 then SendResult.unauthorized none
        else SendResult.ok (some 9))
      (fun _ => false) none (some 9) (by decide) (by decide) rfl).2.1 rfl
  · exact (unauthorized_chunk_handling "a.tif" 5
      (fun k => if k = 0 then SendResult.unauthorized none
        else SendResult.ok (some 9))
      (fun _ => true) none (some 9) (by decide) (by decide) rfl).2.2 rfl rfl

/-- The local-duplicate scan of `do_upload` (`workflow.py`): iterate the
candidate filenames in order; look each one's fingerprint up in the
session's hash cache (a missing or empty hash — falsy in Python — takes the
file out of duplicate detection); remember in `seen` the first filename per
fingerprint; a later filename whose fingerprint is already in `seen` is
appended to the duplicate list and marked skipped with
`"Duplicate of <first filename>"`.  Purely local: no network component
appears in the model.  Returns the updated session and the duplicates. -/
def dupScanBody (s : UploadSessionState) (seen : Dict String)
    (dups : List (String × String)) (f : String) :
    Dict String × List (String × String) × UploadSessionState :=
  match Dict.get s.file_hashes f with
  | none => (seen, dups, s)
  | some h =>
    if h = "" then (seen, dups, s)
    else
      match Dict.get seen h with
      | some first =>
        (seen, dups ++ [(f, first)],
          s.mark_skipped f ("Duplicate of " ++ first))
      | none => (seen.insert h f, dups, s)

def dupScan : List String → Dict String → List (String × String) →
    UploadSessionState → UploadSessionState × List (String × String)
  | [], _, dups, s => (s, dups)
  | f :: rest, seen, dups, s =>
    dupScan rest (dupScanBody s seen dups f).1 (dupScanBody s seen dups f).2.1
      (dupScanBody s seen dups f).2.2

/-- The duplicate-handling step of `do_upload`: run the scan with empty
`seen_hashes` and `duplicates`, then — only when duplicates were found —
drop every filename present in the session's skipped map from the transfer
list.  Returns the updated session, the remaining transfer list, and the
duplicate pairs. -/
def do_upload_duplicate_step (files : List String) (s : UploadSessionState) :
    UploadSessionState × List String × List (String × String) :=
  let res := dupScan files [] [] s
  let files2 :=
    if res.2 ≠ [] then
      files.filter (fun f => !(res.1.files_skipped.hasKey f))
    else files
  (res.1, files2, res.2)

/-- C8: in-batch duplicate detection.  For candidate files `A`, `B`, `C` in
that stable order, where `A` and `C` carry the same (non-empty) fingerprint
`h` and `B` a different one, the scan marks `C` skipped with the reason
`"Duplicate of A"` (referencing the first filename seen with `h`), records
the pair `(C, A)`, and excludes `C` from the transfer list, which keeps
exactly `A` and `B` — all without any network call (the scan is a pure
function of the session and filenames). -/
theorem in_batch_duplicate_marked_and_excluded
    (A B C h h2 : String) (s : UploadSessionState)
    (hAC : A ≠ C) (hBC : B ≠ C) (hhh : h ≠ h2) (hne : h ≠ "") (hne2 : h2 ≠ "")
    (hgA : Dict.get s.file_hashes A = some h)
    (hgB : Dict.get s.file_hashes B = some h2)
    (hgC : Dict.get s.file_hashes C = some h)
    (hsk : s.files_skipped = []) :
    Dict.get (do_upload_duplicate_step [A, B, C] s).1.files_skipped C =
        some ("Duplicate of " ++ A) ∧
    (do_upload_duplicate_step [A, B, C] s).2.1 = [A, B] ∧
    (do_upload_duplicate_step [A, B, C] s).2.2 = [(C, A)] := by
  have e1 : (h == h2) = false := beq_eq_false_iff_ne.mpr hhh
  have eCA : (C == A) = false := beq_eq_false_iff_ne.mpr (Ne.symm hAC)
  have eCB : (C == B) = false := beq_eq_false_iff_ne.mpr (Ne.symm hBC)
  have hgetB : Dict.get [(h, A)] h2 = none := by
    simp [Dict.get, List.find?, e1]
  have hgetC : Dict.get [(h, A), (h2, B)] h = some A := by
    simp [Dict.get, List.find?]
  have hIns : Dict.insert [(h, A)] h2 B = [(h, A), (h2, B)] := by
    rw [Dict.insert,
      show Dict.hasKey [(h, A)] h2 = false from by simp [Dict.hasKey, e1]]
    rfl
  have bodyA : dupScanBody s [] [] A = ([(h, A)], [], s) := by
    rw [dupScanBody]
    simp only [hgA]
    rw [if_neg hne]
    rfl
  have bodyB : dupScanBody s [(h, A)] [] B = ([(h, A), (h2, B)], [], s) := by
    rw [dupScanBody]
    simp only [hgB]
    rw [if_neg hne2, hgetB, hIns]
  have bodyC : dupScanBody s [(h, A), (h2, B)] [] C =
      ([(h, A), (h2, B)], [(C, A)],
        s.mark_skipped C ("Duplicate of " ++ A)) := by
    rw [dupScanBody]
    simp only [hgC]
    rw [if_neg hne, hgetC]
    rfl
  have hscan : dupScan [A, B, C] [] [] s =
      (s.mark_skipped C ("Duplicate of " ++ A), [(C, A)]) := by
    rw [dupScan]
    simp only [bodyA]
    rw [dupScan]
    simp only [bodyB]
    rw [dupScan]
    simp only [bodyC]
    rw [dupScan]
  have hskip : (s.mark_skipped C ("Duplicate of " ++ A)).files_skipped =
      [(C, "Duplicate of " ++ A)] := by
    rw [mark_skipped_skipped, hsk]
    rfl
  refine ⟨?_, ?_, ?_⟩
  · rw [do_upload_duplicate_step]
    simp only [hscan, hskip]
    simp [Dict.get, List.find?]
  · rw [do_upload_duplicate_step]
    simp only [hscan, hskip]
    rw [if_pos (by simp)]
    simp [Dict.hasKey, List.filter, eCA, eCB]
  · rw [do_upload_duplicate_step]
    simp [hscan]

/-- Witness for C8 with concrete filenames and fingerprints. -/
theorem in_batch_duplicate_marked_and_excluded_witness :
    Dict.get (do_upload_duplicate_step ["a.tif", "b.tif", "c.tif"]
        { UploadSessionState.create "sid" "now" "dir" "meta" "api" with
          file_hashes := [("a.tif", "h1"), ("b.tif", "h2"),
            ("c.tif", "h1")] }).1.files_skipped "c.tif" =
      some ("Duplicate of " ++ "a.tif") ∧
    (do_upload_duplicate_step ["a.tif", "b.tif", "c.tif"]
        { UploadSessionState.create "sid" "now" "dir" "meta" "api" with
          file_hashes := [("a.tif", "h1"), ("b.tif", "h2"),
            ("c.tif", "h1")] }).2.1 = ["a.tif", "b.tif"] ∧
    (do_upload_duplicate_step ["a.tif", "b.tif", "c.tif"]
        { UploadSessionState.create "sid" "now" "dir" "meta" "api" with
          file_hashes := [("a.tif", "h1"), ("b.tif", "h2"),
            ("c.tif", "h1")] }).2.2 = [("c.tif", "a.tif")] :=
  in_batch_duplicate_marked_and_excluded "a.tif" "b.tif" "c.tif" "h1" "h2"
    { UploadSessionState.create "sid" "now" "dir" "meta" "api" with
      file_hashes := [("a.tif", "h1"), ("b.tif", "h2"), ("c.tif", "h1")] }
    (by decide) (by decide) (by decide) (by decide) (by decide)
    (by decide) (by decide) (by decide) (by decide)

end DeadtreesUpload
